import Mathlib

/-!
Verification of the task-lifecycle and fan-out core of the Ethereum
transaction tracker (backend/main.py, backend/services/contract_analyzer.py,
backend/websocket_manager.py, contract-analyzer/main.py).

Shallow embedding conventions:
* a SQLAlchemy `ContractAnalysis` row is a Lean structure whose nullable
  columns are `Option` fields; the `attack_vectors` Text column holds a JSON
  list and is modelled as the decoded `Option (List String)`;
* a Python result dict is a structure of `Option` fields (`dict.get` misses
  are `none`); Python truthiness of a string / list field is `truthyStr` /
  `truthyList`;
* timestamps are integer seconds; `datetime.utcnow()` is an explicit `now`
  argument; `random.randint` / `random.choices` draws are explicit function
  and index arguments, so one Lean evaluation corresponds to one Python run
  with those draws;
* a raised-and-propagated exception is an `Except.error`; exceptions that the
  source catches locally are folded into the branch the handler takes.
-/

namespace EthTracker

/-- Python truthiness of an optional string field (`None` and `""` are falsy). -/
def truthyStr : Option String → Bool
  | none => false
  | some s => s ≠ ""

/-- Python truthiness of an optional list field (`None` and `[]` are falsy). -/
def truthyList : Option (List String) → Bool
  | none => false
  | some l => l ≠ []

/-- A `ContractAnalysis` row (backend/models.py lines 28-46). Nullable columns
are `Option`; `attack_vectors` is the decoded JSON list stored in the Text
column; `analyzed_at` is the row timestamp (set at insertion, default
`datetime.utcnow`). -/
structure ContractAnalysis where
  contract_address : String
  task_id : String
  status : String
  verdict : Option String := none
  explanation : Option String := none
  security_score : Option Int := none
  attack_vectors : Option (List String) := none
  analyzed_at : Int := 0
  deriving DecidableEq, Repr

/-- A result dict as returned by the analyzer client
(`contract_analyzer.get_analysis_result` / `get_analysis_status`). Fields the
dict may be missing are `none`. `progress` mirrors the mock status reply. -/
structure AnalyzerResult where
  status : Option String := none
  verdict : Option String := none
  explanation : Option String := none
  security_score : Option Int := none
  attack_vectors : Option (List String) := none
  progress : Option Int := none
  deriving DecidableEq, Repr

/-- One iteration body of `poll_analysis_result` (backend/main.py lines
484-533) acting on the task row: returns the updated row and whether the
loop breaks this iteration. The first branch fires when the fetched result
has truthy `verdict` and `explanation`; the second when the result reports
status `failed`; otherwise the row is untouched and polling continues. -/
def pollTick (analysis : ContractAnalysis) (result : AnalyzerResult) :
    ContractAnalysis × Bool :=
  if truthyStr result.verdict && truthyStr result.explanation then
    ({ analysis with
        status := "completed"
        verdict := result.verdict
        explanation := result.explanation
        security_score := result.security_score
        attack_vectors :=
          if truthyList result.attack_vectors then result.attack_vectors
          else analysis.attack_vectors },
      true)
  else if result.status = some "failed" then
    ({ analysis with status := "failed" }, true)
  else
    (analysis, false)

/-- The `while attempt < max_attempts` loop of `poll_analysis_result`
(backend/main.py lines 483-550), recursing on the remaining attempt budget.
`fetch n` is the analyzer reply at attempt `n`; `none` models an exception
raised by the fetch, which the `except` clause swallows before the next
attempt. When the budget reaches zero the timeout epilogue marks the row
`failed` only if it is still `processing`. -/
def pollLoopAux (fetch : Nat → Option AnalyzerResult) :
    Nat → Nat → ContractAnalysis → ContractAnalysis
  | _attempt, 0, analysis =>
      if analysis.status = "processing" then { analysis with status := "failed" }
      else analysis
  | attempt, fuel + 1, analysis =>
      match fetch attempt with
      | none => pollLoopAux fetch (attempt + 1) fuel analysis
      | some result =>
          if (pollTick analysis result).2 then (pollTick analysis result).1
          else pollLoopAux fetch (attempt + 1) fuel (pollTick analysis result).1

/-- `max_attempts` of `poll_analysis_result` (backend/main.py line 480). -/
def max_attempts : Nat := 60

/-- `poll_analysis_result` (backend/main.py lines 478-550) as a function of
the per-attempt analyzer replies and the initial task row. -/
def poll_analysis_result (fetch : Nat → Option AnalyzerResult)
    (analysis : ContractAnalysis) : ContractAnalysis :=
  pollLoopAux fetch 0 max_attempts analysis

/-- Number of analyzer fetches the polling loop performs (one per loop
iteration, including iterations whose fetch raised). -/
def pollAttempts (fetch : Nat → Option AnalyzerResult) :
    Nat → Nat → ContractAnalysis → Nat
  | _attempt, 0, _analysis => 0
  | attempt, fuel + 1, analysis =>
      match fetch attempt with
      | none => 1 + pollAttempts fetch (attempt + 1) fuel analysis
      | some result =>
          if (pollTick analysis result).2 then 1
          else 1 + pollAttempts fetch (attempt + 1) fuel (pollTick analysis result).1

/-- The response body of `GET /api/analysis-status/...`
(backend/schemas.py `AnalysisStatusResponse`). -/
structure AnalysisStatusResponse where
  task_id : String
  status : String
  verdict : Option String := none
  explanation : Option String := none
  security_score : Option Int := none
  attack_vectors : List String := []
  analyzed_at : Option Int := none
  deriving DecidableEq, Repr

/-- `get_analysis_status` endpoint (backend/main.py lines 346-392) on a row
that exists. For a `completed` row it answers from the store and leaves the
row alone. Otherwise it asks the analyzer (`result`), writes the reported
status back into the row whenever `result.get("status") != analysis.status`
(a missing status key writes the old value back, a no-op), and answers with
the analyzer-reported fields. Returns (updated row, response). -/
def get_analysis_status (analysis : ContractAnalysis) (result : AnalyzerResult) :
    ContractAnalysis × AnalysisStatusResponse :=
  if analysis.status = "completed" then
    (analysis,
      { task_id := analysis.task_id
        status := analysis.status
        verdict := analysis.verdict
        explanation := analysis.explanation
        security_score := analysis.security_score
        attack_vectors := analysis.attack_vectors.getD []
        analyzed_at := some analysis.analyzed_at })
  else
    (if result.status ≠ some analysis.status then
        { analysis with status := result.status.getD analysis.status }
      else analysis,
      { task_id := analysis.task_id
        status := result.status.getD "unknown"
        verdict := result.verdict
        explanation := result.explanation })

/-- The response body of `GET /api/analysis-result/...`
(backend/schemas.py `AnalysisResultResponse`). -/
structure AnalysisResultResponse where
  task_id : String
  contract_address : String
  status : String
  verdict : Option String := none
  explanation : Option String := none
  security_score : Option Int := none
  attack_vectors : List String := []
  analyzed_at : Int := 0
  deriving DecidableEq, Repr

/-- `get_analysis_result` endpoint (backend/main.py lines 394-422) on a row
that exists: HTTP 202 until the row is `completed`, then the stored fields. -/
def get_analysis_result (analysis : ContractAnalysis) :
    Except Nat AnalysisResultResponse :=
  if analysis.status ≠ "completed" then .error 202
  else .ok
    { task_id := analysis.task_id
      contract_address := analysis.contract_address
      status := analysis.status
      verdict := analysis.verdict
      explanation := analysis.explanation
      security_score := analysis.security_score
      attack_vectors := analysis.attack_vectors.getD []
      analyzed_at := analysis.analyzed_at }

/-- The dedup freshness window: `timedelta(hours=24)` in seconds
(backend/main.py line 287). -/
def freshWindow : Int := 24 * 3600

/-- The row filter of the dedup query in `analyze_contract_endpoint`
(backend/main.py lines 284-292): same lower-cased address, `analyzed_at`
inside the 24-hour window, status `completed`, and `verdict` / `explanation`
not NULL (`isnot(None)`). -/
def dedupHit (now : Int) (contract_address : String) (a : ContractAnalysis) : Bool :=
  a.contract_address = contract_address.toLower
    && decide (a.analyzed_at > now - freshWindow)
    && a.status = "completed"
    && a.verdict.isSome
    && a.explanation.isSome

/-- The dedup check of `analyze_contract_endpoint` (backend/main.py lines
283-292): `.first()` row of the filtered query, over the rows `db`. -/
def analyze_contract_dedup (now : Int) (contract_address : String)
    (db : List ContractAnalysis) : Option ContractAnalysis :=
  db.find? (dedupHit now contract_address)

/-- A mock task entry of `ContractAnalyzerService._mock_tasks`
(backend/services/contract_analyzer.py lines 104-112, 137-139, 164-165). -/
structure MockTask where
  contract_address : String
  submitted_at : Int
  status : String := "processing"
  result : Option AnalyzerResult := none
  deriving DecidableEq, Repr

/-- `KNOWN_MALICIOUS` of `_generate_mock_result`
(backend/services/contract_analyzer.py lines 178-181). -/
def KNOWN_MALICIOUS : List String :=
  ["0x1234567890123456789012345678901234567890",
   "0xdeadbeefdeadbeefdeadbeefdeadbeefdeadbeef"]

/-- `KNOWN_SAFE` of `_generate_mock_result`
(backend/services/contract_analyzer.py lines 184-188). -/
def KNOWN_SAFE : List String :=
  ["0xa0b86991c6218b36c1d19d4a2e9eb0ce3606eb48",
   "0xdac17f958d2ee523a2206206994597c13d831ec7",
   "0x6b175474e89094c44da98b954eedeac495271d0f"]

/-- `_generate_mock_result` (backend/services/contract_analyzer.py lines
173-262). `rand a b` stands for `random.randint(a, b)`; `pick` is the index
`random.choices` draws from the three verdict templates of the unknown-address
branch (weights 0.7 / 0.2 / 0.1). The `technical_details` sub-dict, which the
backend never reads or stores, is not modelled. The produced dict always has
status-free verdict / explanation / security_score / attack_vectors keys. -/
def _generate_mock_result (rand : Int → Int → Int) (pick : Fin 3)
    (contract_address : String) : AnalyzerResult :=
  if contract_address.toLower ∈ KNOWN_MALICIOUS then
    { verdict := some "MALICIOUS"
      explanation := some "This contract contains wallet draining functionality and hidden ownership backdoors. It can transfer tokens without explicit user approval and has suspicious external calls to unknown addresses."
      security_score := some (rand 1 15)
      attack_vectors := some ["Token Draining", "Approval Abuse",
        "Hidden Mint Function", "Ownership Backdoor"] }
  else if contract_address.toLower ∈ KNOWN_SAFE then
    { verdict := some "BENIGN"
      explanation := some "This is a well-known, audited contract that follows standard security practices. No vulnerabilities or suspicious patterns detected."
      security_score := some (rand 85 98)
      attack_vectors := some [] }
  else if pick.val = 0 then
    { verdict := some "BENIGN"
      explanation := some "Standard ERC-20 token contract with no security issues detected. Follows OpenZeppelin patterns and best practices."
      security_score := some (rand 75 95)
      attack_vectors := some [] }
  else if pick.val = 1 then
    { verdict := some "SUSPICIOUS"
      explanation := some "Contains external calls that could be exploited under certain conditions. The contract has complex logic that may hide potential vulnerabilities."
      security_score := some (rand 35 65)
      attack_vectors := some ["Complex External Calls", "Unusual Gas Patterns"] }
  else
    { verdict := some "MALICIOUS"
      explanation := some "Detected wallet draining patterns and unauthorized transfer capabilities. This contract can move user funds without explicit permission."
      security_score := some (rand 5 25)
      attack_vectors := some ["Wallet Draining", "Unauthorized Transfers",
        "Hidden Functions"] }

/-- `mock_get_status` (backend/services/contract_analyzer.py lines 117-146)
on a task that exists in `_mock_tasks`: before the fixed 10-second delay it
reports `processing` with a progress figure; afterwards it marks the task
completed, regenerates the mock result from fresh random draws on every call
(overwriting any cached one), and reports the regenerated verdict and
explanation. Returns (updated task entry, reply dict). -/
def mock_get_status (task : MockTask) (now : Int) (rand : Int → Int → Int)
    (pick : Fin 3) : MockTask × AnalyzerResult :=
  if now - task.submitted_at < 10 then
    (task, { status := some "processing"
             progress := some (min 90 ((now - task.submitted_at) * 9)) })
  else
    ({ task with status := "completed"
                 result := some (_generate_mock_result rand pick task.contract_address) },
      { status := some "completed"
        verdict := (_generate_mock_result rand pick task.contract_address).verdict
        explanation := (_generate_mock_result rand pick task.contract_address).explanation })

/-- `mock_get_result` (backend/services/contract_analyzer.py lines 148-171)
on a task that exists in `_mock_tasks`: `processing` before the 10-second
delay; afterwards the cached result if one is stored, else a freshly
generated one which is then cached. Returns (updated task entry, reply). -/
def mock_get_result (task : MockTask) (now : Int) (rand : Int → Int → Int)
    (pick : Fin 3) : MockTask × AnalyzerResult :=
  if now - task.submitted_at < 10 then
    (task, { status := some "processing" })
  else
    ({ task with result := some ((task.result).getD
        (_generate_mock_result rand pick task.contract_address)) },
      { (task.result).getD (_generate_mock_result rand pick task.contract_address)
          with status := some "completed" })

/-- The reply of `POST /analyze` as the backend client sees it
(backend/services/contract_analyzer.py lines 46, 115). -/
structure SubmitResult where
  task_id : String
  status : String
  deriving DecidableEq, Repr

/-- `mock_analyze_contract` (backend/services/contract_analyzer.py lines
98-115): registers a fresh `processing` mock task keyed by a `mock_`-prefixed
id and reports `submitted`. `now` is `int(datetime.utcnow().timestamp())`. -/
def mock_analyze_contract (now : Int) (contract_address : String) :
    MockTask × SubmitResult :=
  ({ contract_address := contract_address, submitted_at := now },
    { task_id := "mock_" ++ toString now ++ "_" ++ contract_address.takeRight 8
      status := "submitted" })

/-- Outcome of the HTTP round trip `POST {analyzer_url}/analyze` issued by
`ContractAnalyzerService.analyze_contract`. -/
inductive SubmitOutcome where
  | ok (task_id : String)
  | httpError (text : String)
  | transportError (msg : String)
  deriving DecidableEq, Repr

/-- The `try` body of `ContractAnalyzerService.analyze_contract`
(backend/services/contract_analyzer.py lines 31-47): a non-200 reply raises,
as does any transport failure; a 200 reply yields the remote task id. -/
def remote_submit : SubmitOutcome → Except String SubmitResult
  | .ok task_id => .ok { task_id := task_id, status := "submitted" }
  | .httpError text => .error ("Analysis submission failed: " ++ text)
  | .transportError msg => .error msg

/-- `ContractAnalyzerService.analyze_contract` (backend/services/
contract_analyzer.py lines 22-50): the mock path when `use_mock` is set, and
otherwise the remote submission with the `except` clause falling back to the
mock path on any raised error. Returns (mock task created, if any; reply). -/
def analyze_contract (use_mock : Bool) (remote : SubmitOutcome) (now : Int)
    (contract_address : String) : Option MockTask × SubmitResult :=
  if use_mock then
    (some (mock_analyze_contract now contract_address).1,
      (mock_analyze_contract now contract_address).2)
  else
    match remote_submit remote with
    | .ok reply => (none, reply)
    | .error _ =>
        (some (mock_analyze_contract now contract_address).1,
          (mock_analyze_contract now contract_address).2)

/-- The `security_score` value found in the parsed Gemini reply of
contract-analyzer/main.py: the key may be missing or `None` (`absent`),
present but not an `int` / `float` (`nonNumeric`), or numeric, in which case
`n` is the value of Python `int(...)` on it. -/
inductive ScoreField where
  | absent
  | nonNumeric
  | numeric (n : Int)
  deriving DecidableEq, Repr

/-- The parsed (possibly partial) Gemini verdict dict that
`ensure_complete_analysis` receives (contract-analyzer/main.py). -/
structure GeminiDict where
  verdict : Option String := none
  explanation : Option String := none
  security_score : ScoreField := .absent
  attack_vectors : Option (List String) := none
  deriving DecidableEq, Repr

/-- The dict after `ensure_complete_analysis`: every required field present. -/
structure CompleteAnalysis where
  verdict : String
  explanation : String
  security_score : Int
  attack_vectors : List String
  deriving DecidableEq, Repr

/-- `valid_verdicts` of `ensure_complete_analysis`
(contract-analyzer/main.py line 149). -/
def valid_verdicts : List String := ["MALICIOUS", "SUSPICIOUS", "BENIGN"]

/-- `ensure_complete_analysis` (contract-analyzer/main.py lines 145-179):
normalises the verdict to the allow-list or `UNKNOWN`, defaults a missing
explanation, replaces a missing / non-numeric score by the verdict-indexed
default (BENIGN 85, SUSPICIOUS 45, MALICIOUS 15, otherwise 50), clamps a
numeric score into [0, 100] via `max(0, min(100, int(score)))`, and defaults
`attack_vectors` to the empty list. -/
def ensure_complete_analysis (result : GeminiDict) : CompleteAnalysis :=
  { verdict :=
      if truthyStr result.verdict && decide (result.verdict.getD "" ∈ valid_verdicts)
      then result.verdict.getD "" else "UNKNOWN"
    explanation :=
      if truthyStr result.explanation then result.explanation.getD ""
      else "Analysis completed but no detailed explanation provided."
    security_score :=
      match result.security_score with
      | .numeric n => max 0 (min 100 n)
      | _ =>
          if (if truthyStr result.verdict
                && decide (result.verdict.getD "" ∈ valid_verdicts)
              then result.verdict.getD "" else "UNKNOWN") = "BENIGN" then 85
          else if (if truthyStr result.verdict
                && decide (result.verdict.getD "" ∈ valid_verdicts)
              then result.verdict.getD "" else "UNKNOWN") = "SUSPICIOUS" then 45
          else if (if truthyStr result.verdict
                && decide (result.verdict.getD "" ∈ valid_verdicts)
              then result.verdict.getD "" else "UNKNOWN") = "MALICIOUS" then 15
          else 50
    attack_vectors :=
      if truthyList result.attack_vectors then result.attack_vectors.getD []
      else [] }

/-- `ConnectionManager.disconnect` (backend/websocket_manager.py lines
32-36): remove the handle from `active_connections` only if it is present. -/
def disconnect {α : Type} [DecidableEq α] (active_connections : List α)
    (websocket : α) : List α :=
  if websocket ∈ active_connections then active_connections.erase websocket
  else active_connections

/-- `ConnectionManager.broadcast` (backend/websocket_manager.py lines 46-71)
over the registered handles. `fails c` tells whether the `send_json` to `c`
raises during this publish. Returns the pair (handles a delivery was
attempted to, in order; handles still registered on return). The loop tries
every handle, collecting the failing ones in `disconnected`, and afterwards
runs `disconnect` on each collected handle. -/
def broadcast {α : Type} [DecidableEq α] (active_connections : List α)
    (fails : α → Bool) : List α × List α :=
  if active_connections = [] then ([], active_connections)
  else
    (active_connections,
      (active_connections.filter fails).foldl disconnect active_connections)

/-- The list of event types `ConnectionManager.broadcast_analysis_complete`
publishes (backend/websocket_manager.py lines 99-112, 114-130): always
`analysis_complete`, followed by `alert` exactly when the payload verdict is
the `MALICIOUS` category. -/
def broadcast_analysis_complete (verdict : Option String) : List String :=
  "analysis_complete" :: (if verdict = some "MALICIOUS" then ["alert"] else [])

/-- An analyzer reply that triggers neither terminating branch of the polling
loop: verdict / explanation not both truthy, and status not `failed`. -/
def nonTerminalResult (r : AnalyzerResult) : Prop :=
  (truthyStr r.verdict && truthyStr r.explanation) = false ∧ r.status ≠ some "failed"

/-- The row invariant of spec section 3: truthy `verdict` and `explanation`
exactly on `completed` rows, NULL on all others. -/
def analysisInv (a : ContractAnalysis) : Prop :=
  (a.status = "completed" → truthyStr a.verdict = true ∧ truthyStr a.explanation = true)
    ∧ (a.status ≠ "completed" → a.verdict = none ∧ a.explanation = none)

/-- The analyzer replies the polling loop sees when the submission fell back
to the mock analyzer: attempt `n` runs about `5 * n` seconds after
submission (the first fetch is immediate, each later one after the fixed
5-second sleep) and calls `mock_get_result` on the stored mock task. The
task entry need not be threaded between attempts: it is unchanged while the
reply is `processing`, and the loop stops at the first terminal reply. -/
def mockFetch (task : MockTask) (rand : Int → Int → Int) (pick : Fin 3)
    (n : Nat) : Option AnalyzerResult :=
  some (mock_get_result task (task.submitted_at + 5 * (n : Int)) rand pick).2

/-! Helper lemmas about the polling loop. -/

theorem pollTick_of_nonTerminal (a : ContractAnalysis) (r : AnalyzerResult)
    (h : nonTerminalResult r) : pollTick a r = (a, false) := by
  simp [pollTick, h.1, h.2]

theorem pollTick_continue_fst (a : ContractAnalysis) (r : AnalyzerResult)
    (h : (pollTick a r).2 = false) : (pollTick a r).1 = a := by
  unfold pollTick at *
  split_ifs at *
  all_goals simp_all

theorem pollTick_break_status (a : ContractAnalysis) (r : AnalyzerResult)
    (h : (pollTick a r).2 = true) :
    (pollTick a r).1.status = "completed" ∨ (pollTick a r).1.status = "failed" := by
  unfold pollTick at *
  split_ifs at *
  all_goals simp_all

theorem pollLoopAux_forward (fetch : Nat → Option AnalyzerResult) :
    ∀ (fuel attempt : Nat) (a : ContractAnalysis), a.status = "processing" →
      (pollLoopAux fetch attempt fuel a).status = "completed" ∨
        (pollLoopAux fetch attempt fuel a).status = "failed" := by
  intro fuel
  induction fuel with
  | zero =>
      intro attempt a ha
      right
      simp [pollLoopAux, ha]
  | succ n ih =>
      intro attempt a ha
      simp only [pollLoopAux]
      cases hfa : fetch attempt with
      | none => exact ih (attempt + 1) a ha
      | some r =>
          by_cases hb : (pollTick a r).2 = true
          · simp only [hb, if_true]
            exact pollTick_break_status a r hb
          · simp only [hb, if_false]
            rw [pollTick_continue_fst a r (by simpa using hb)]
            exact ih (attempt + 1) a ha

theorem pollLoopAux_inv (fetch : Nat → Option AnalyzerResult) :
    ∀ (fuel attempt : Nat) (a : ContractAnalysis),
      a.status = "processing" → a.verdict = none → a.explanation = none →
      analysisInv (pollLoopAux fetch attempt fuel a) := by
  intro fuel
  induction fuel with
  | zero =>
      intro attempt a ha hv he
      simp only [pollLoopAux, ha, if_true]
      exact ⟨fun h => by simp_all, fun _ => ⟨hv, he⟩⟩
  | succ n ih =>
      intro attempt a ha hv he
      simp only [pollLoopAux]
      cases hfa : fetch attempt with
      | none => exact ih (attempt + 1) a ha hv he
      | some r =>
          by_cases h1 : (truthyStr r.verdict && truthyStr r.explanation) = true
          · simp only [pollTick, h1, if_true]
            refine ⟨fun _ => ?_, fun h => absurd rfl h⟩
            simpa using h1
          · by_cases h2 : r.status = some "failed"
            · simp only [pollTick, h1, if_false, h2, if_true]
              exact ⟨fun h => by simp_all, fun _ => ⟨hv, he⟩⟩
            · have hc : pollTick a r = (a, false) :=
                pollTick_of_nonTerminal a r ⟨by simpa using h1, h2⟩
              simp only [hc]
              exact ih (attempt + 1) a ha hv he

theorem pollAttempts_le (fetch : Nat → Option AnalyzerResult) :
    ∀ (fuel attempt : Nat) (a : ContractAnalysis),
      pollAttempts fetch attempt fuel a ≤ fuel := by
  intro fuel
  induction fuel with
  | zero => intro attempt a; simp [pollAttempts]
  | succ n ih =>
      intro attempt a
      cases hfa : fetch attempt with
      | none =>
          have h := ih (attempt + 1) a
          have he : pollAttempts fetch attempt (n + 1) a =
              1 + pollAttempts fetch (attempt + 1) n a := by
            simp only [pollAttempts, hfa]
          omega
      | some r =>
          by_cases hb : (pollTick a r).2 = true
          · have he : pollAttempts fetch attempt (n + 1) a = 1 := by
              simp only [pollAttempts, hfa, hb, if_true]
            omega
          · have hb' : (pollTick a r).2 = false := by simpa using hb
            have h := ih (attempt + 1) (pollTick a r).1
            have he : pollAttempts fetch attempt (n + 1) a =
                1 + pollAttempts fetch (attempt + 1) n (pollTick a r).1 := by
              simp only [pollAttempts, hfa, hb', Bool.false_eq_true, if_false]
            omega

theorem pollLoopAux_of_nonTerminal (fetch : Nat → Option AnalyzerResult)
    (hf : ∀ n r, fetch n = some r → nonTerminalResult r) :
    ∀ (fuel attempt : Nat) (a : ContractAnalysis),
      pollLoopAux fetch attempt fuel a =
        if a.status = "processing" then { a with status := "failed" } else a := by
  intro fuel
  induction fuel with
  | zero => intro attempt a; simp [pollLoopAux]
  | succ n ih =>
      intro attempt a
      simp only [pollLoopAux]
      cases hfa : fetch attempt with
      | none => exact ih (attempt + 1) a
      | some r =>
          show (if (pollTick a r).2 = true then (pollTick a r).1
              else pollLoopAux fetch (attempt + 1) n (pollTick a r).1) = _
          rw [pollTick_of_nonTerminal a r (hf attempt r hfa)]
          simp only [Bool.false_eq_true, if_false]
          exact ih (attempt + 1) a

theorem pollLoopAux_step_continue (fetch : Nat → Option AnalyzerResult)
    (attempt fuel : Nat) (a : ContractAnalysis)
    (h : ∀ r, fetch attempt = some r → pollTick a r = (a, false)) :
    pollLoopAux fetch attempt (fuel + 1) a = pollLoopAux fetch (attempt + 1) fuel a := by
  simp only [pollLoopAux]
  cases hfa : fetch attempt with
  | none => rfl
  | some r => simp [h r hfa]

theorem pollLoopAux_step_break (fetch : Nat → Option AnalyzerResult)
    (attempt fuel : Nat) (a : ContractAnalysis) (r : AnalyzerResult)
    (hr : fetch attempt = some r) (hb : (pollTick a r).2 = true) :
    pollLoopAux fetch attempt (fuel + 1) a = (pollTick a r).1 := by
  simp only [pollLoopAux, hr, hb, if_true]

/-! Claim C1: forward-only task state. -/

/-- C1 counterexample: the status-query endpoint write-back DOES change the
state of a task that is already `failed` — with the analyzer reporting
`processing`, the stored state moves from the terminal `failed` back to
`processing`, so the claim that no operation ever changes a terminal state
(and that no state is revisited) is false on the code. -/
theorem status_writeback_exits_failed :
    ((get_analysis_status
        { contract_address := "0xc1", task_id := "t-c1", status := "failed" }
        { status := some "processing" }).1).status = "processing" := by
  rfl

/-- C1 (amended): once a task is `completed`, the status-query endpoint
leaves its row entirely unchanged, and the polling loop started on a
`processing` row moves it only forward, to `completed` or `failed`; the
exception is the status-query write-back on a non-completed row, which
stores whatever status the analyzer reports and can therefore move a
`failed` task back to an earlier state. -/
theorem completed_sticky_poll_forward (a b : ContractAnalysis)
    (res : AnalyzerResult) (fetch : Nat → Option AnalyzerResult)
    (ha : a.status = "completed") (hb : b.status = "processing") :
    (get_analysis_status a res).1 = a ∧
    ((poll_analysis_result fetch b).status = "completed" ∨
      (poll_analysis_result fetch b).status = "failed") := by
  constructor
  · simp [get_analysis_status, ha]
  · exact pollLoopAux_forward fetch max_attempts 0 b hb

/-- C1 witness: the amended theorem at a concrete completed row, processing
row, analyzer reply and fetch schedule. -/
theorem completed_sticky_poll_forward_witness :
    (get_analysis_status
        { contract_address := "0xw1", task_id := "t-w1", status := "completed",
          verdict := some "BENIGN", explanation := some "ok" }
        { status := some "processing" }).1 =
      { contract_address := "0xw1", task_id := "t-w1", status := "completed",
        verdict := some "BENIGN", explanation := some "ok" } ∧
    ((poll_analysis_result (fun _ => none)
        { contract_address := "0xw1b", task_id := "t-w1b", status := "processing" }).status
        = "completed" ∨
      (poll_analysis_result (fun _ => none)
        { contract_address := "0xw1b", task_id := "t-w1b", status := "processing" }).status
        = "failed") :=
  completed_sticky_poll_forward
    { contract_address := "0xw1", task_id := "t-w1", status := "completed",
      verdict := some "BENIGN", explanation := some "ok" }
    { contract_address := "0xw1b", task_id := "t-w1b", status := "processing" }
    { status := some "processing" } (fun _ => none) rfl rfl

/-! Claim C2: verdict and explanation present iff completed. -/

/-- C2 counterexample: the status-query write-back marks a `processing` task
`completed` without storing any verdict or explanation when the analyzer
reports status `completed`, so "every operation that marks a task completed
also stores a verdict and an explanation" is false on the code. -/
theorem status_writeback_completes_without_verdict :
    ((get_analysis_status
        { contract_address := "0xc2", task_id := "t-c2", status := "processing" }
        { status := some "completed" }).1).status = "completed" ∧
    ((get_analysis_status
        { contract_address := "0xc2", task_id := "t-c2", status := "processing" }
        { status := some "completed" }).1).verdict = none ∧
    ((get_analysis_status
        { contract_address := "0xc2", task_id := "t-c2", status := "processing" }
        { status := some "completed" }).1).explanation = none := by
  exact ⟨rfl, rfl, rfl⟩

/-- C2 (amended): the polling loop maintains the if-and-only-if — run on a
fresh `processing` row with NULL verdict and explanation, the resulting row
has truthy verdict and explanation exactly when its state is `completed` —
and the status-query endpoint never stores a verdict or explanation; the
write-back can however mark a row `completed` while leaving both NULL. -/
theorem verdict_explanation_completed_inv (a b : ContractAnalysis)
    (res : AnalyzerResult) (fetch : Nat → Option AnalyzerResult)
    (hb : b.status = "processing") (hv : b.verdict = none)
    (he : b.explanation = none) :
    analysisInv (poll_analysis_result fetch b) ∧
    ((get_analysis_status a res).1).verdict = a.verdict ∧
    ((get_analysis_status a res).1).explanation = a.explanation := by
  refine ⟨pollLoopAux_inv fetch max_attempts 0 b hb hv he, ?_, ?_⟩
  · unfold get_analysis_status
    split_ifs <;> rfl
  · unfold get_analysis_status
    split_ifs <;> rfl

/-- C2 witness: the amended theorem at a concrete processing row, with a
fetch schedule delivering a terminal verdict at the first attempt. -/
theorem verdict_explanation_completed_inv_witness :
    analysisInv (poll_analysis_result
      (fun _ => some { verdict := some "BENIGN", explanation := some "fine" })
      { contract_address := "0xw2", task_id := "t-w2", status := "processing" }) ∧
    ((get_analysis_status
        { contract_address := "0xw2b", task_id := "t-w2b", status := "pending" }
        { status := some "processing" }).1).verdict =
      ({ contract_address := "0xw2b", task_id := "t-w2b", status := "pending" }
        : ContractAnalysis).verdict ∧
    ((get_analysis_status
        { contract_address := "0xw2b", task_id := "t-w2b", status := "pending" }
        { status := some "processing" }).1).explanation =
      ({ contract_address := "0xw2b", task_id := "t-w2b", status := "pending" }
        : ContractAnalysis).explanation :=
  verdict_explanation_completed_inv
    { contract_address := "0xw2b", task_id := "t-w2b", status := "pending" }
    { contract_address := "0xw2", task_id := "t-w2", status := "processing" }
    { status := some "processing" }
    (fun _ => some { verdict := some "BENIGN", explanation := some "fine" })
    rfl rfl rfl

/-! Claim C5: poll budget and timeout. -/

/-- C5 (confirmed): the polling loop fetches at most 60 times, and when every
reply the analyzer ever gives is non-terminal (no truthy verdict-and-
explanation pair and no `failed` status), the loop exhausts its budget and
the only change it makes to the row is the timeout transition of a still-
`processing` row to `failed` — this timeout path is the sole way such a task
becomes terminal. -/
theorem poll_budget_timeout (fetch : Nat → Option AnalyzerResult)
    (a : ContractAnalysis) (ha : a.status = "processing") :
    pollAttempts fetch 0 max_attempts a ≤ 60 ∧
    ((∀ n r, fetch n = some r → nonTerminalResult r) →
      poll_analysis_result fetch a = { a with status := "failed" }) := by
  constructor
  · exact pollAttempts_le fetch max_attempts 0 a
  · intro hf
    unfold poll_analysis_result
    rw [pollLoopAux_of_nonTerminal fetch hf max_attempts 0 a, if_pos ha]

/-- C5 witness: a processing row polled against an analyzer that always
reports `processing` ends `failed` after at most 60 fetches. -/
theorem poll_budget_timeout_witness :
    pollAttempts (fun _ => some { status := some "processing" }) 0 max_attempts
      { contract_address := "0xw5", task_id := "t-w5", status := "processing" } ≤ 60 ∧
    poll_analysis_result (fun _ => some { status := some "processing" })
      { contract_address := "0xw5", task_id := "t-w5", status := "processing" } =
      { contract_address := "0xw5", task_id := "t-w5", status := "failed" } := by
  have h := poll_budget_timeout (fun _ => some { status := some "processing" })
    { contract_address := "0xw5", task_id := "t-w5", status := "processing" } rfl
  refine ⟨h.1, ?_⟩
  have h2 := h.2 (fun n r hr => by
    injection hr with hr
    subst hr
    exact ⟨rfl, by decide⟩)
  exact h2

/-! Claim C3: dedup hit policy. -/

/-- C3 counterexample: the dedup query tests `verdict.isnot(None)` and
`explanation.isnot(None)`, not non-emptiness — a completed row whose verdict
and explanation are both the empty string is returned as a hit, so the claim
that a hit requires non-empty verdict and explanation is false on the code. -/
theorem dedup_hit_with_empty_verdict :
    analyze_contract_dedup 0 "0xaaaaaaaaaaaaaaaaaaaaaaaaaaaaaaaaaaaaaaaa"
      [{ contract_address := "0xaaaaaaaaaaaaaaaaaaaaaaaaaaaaaaaaaaaaaaaa",
         task_id := "t-c3", status := "completed",
         verdict := some "", explanation := some "" }] =
      some { contract_address := "0xaaaaaaaaaaaaaaaaaaaaaaaaaaaaaaaaaaaaaaaa",
             task_id := "t-c3", status := "completed",
             verdict := some "", explanation := some "" } ∧
    truthyStr (some "") = false := by
  refine ⟨?_, by decide⟩
  simp [analyze_contract_dedup, dedupHit, List.find?, String.toLower,
    String.map_eq, freshWindow]

/-- C3 (amended): the dedup check returns an existing row only when that row
is for the submitted (lower-cased) subject, its state is `completed`, its
verdict and explanation are both non-NULL (possibly empty strings), and its
`analyzed_at` timestamp — set at submission — falls within the 24-hour
freshness window; in particular a `failed` or still-`processing` row never
suppresses a fresh submission. -/
theorem dedup_hit_characterization (now : Int) (addr : String)
    (db : List ContractAnalysis) (hit : ContractAnalysis)
    (h : analyze_contract_dedup now addr db = some hit) :
    hit.contract_address = addr.toLower ∧
    hit.status = "completed" ∧
    hit.verdict.isSome = true ∧
    hit.explanation.isSome = true ∧
    now - freshWindow < hit.analyzed_at ∧
    hit.status ≠ "failed" ∧ hit.status ≠ "processing" := by
  have hp : dedupHit now addr hit = true := List.find?_some h
  simp only [dedupHit, Bool.and_eq_true, decide_eq_true_eq] at hp
  obtain ⟨⟨⟨⟨h1, h2⟩, h3⟩, h4⟩, h5⟩ := hp
  refine ⟨h1, h3, h4, h5, h2, ?_, ?_⟩
  · rw [h3]; decide
  · rw [h3]; decide

/-- C3 witness: the characterization applied to a concrete one-row store
whose row is a fresh completed analysis. -/
theorem dedup_hit_characterization_witness :
    ({ contract_address := "0xbbbbbbbbbbbbbbbbbbbbbbbbbbbbbbbbbbbbbbbb",
       task_id := "t-w3", status := "completed", verdict := some "MALICIOUS",
       explanation := some "drainer" } : ContractAnalysis).contract_address =
      "0xbbbbbbbbbbbbbbbbbbbbbbbbbbbbbbbbbbbbbbbb".toLower ∧
    ({ contract_address := "0xbbbbbbbbbbbbbbbbbbbbbbbbbbbbbbbbbbbbbbbb",
       task_id := "t-w3", status := "completed", verdict := some "MALICIOUS",
       explanation := some "drainer" } : ContractAnalysis).status = "completed" ∧
    ({ contract_address := "0xbbbbbbbbbbbbbbbbbbbbbbbbbbbbbbbbbbbbbbbb",
       task_id := "t-w3", status := "completed", verdict := some "MALICIOUS",
       explanation := some "drainer" } : ContractAnalysis).verdict.isSome = true ∧
    ({ contract_address := "0xbbbbbbbbbbbbbbbbbbbbbbbbbbbbbbbbbbbbbbbb",
       task_id := "t-w3", status := "completed", verdict := some "MALICIOUS",
       explanation := some "drainer" } : ContractAnalysis).explanation.isSome = true ∧
    (0 : Int) - freshWindow <
      ({ contract_address := "0xbbbbbbbbbbbbbbbbbbbbbbbbbbbbbbbbbbbbbbbb",
         task_id := "t-w3", status := "completed", verdict := some "MALICIOUS",
         explanation := some "drainer" } : ContractAnalysis).analyzed_at ∧
    ({ contract_address := "0xbbbbbbbbbbbbbbbbbbbbbbbbbbbbbbbbbbbbbbbb",
       task_id := "t-w3", status := "completed", verdict := some "MALICIOUS",
       explanation := some "drainer" } : ContractAnalysis).status ≠ "failed" ∧
    ({ contract_address := "0xbbbbbbbbbbbbbbbbbbbbbbbbbbbbbbbbbbbbbbbb",
       task_id := "t-w3", status := "completed", verdict := some "MALICIOUS",
       explanation := some "drainer" } : ContractAnalysis).status ≠ "processing" :=
  dedup_hit_characterization 0 "0xbbbbbbbbbbbbbbbbbbbbbbbbbbbbbbbbbbbbbbbb"
    [{ contract_address := "0xbbbbbbbbbbbbbbbbbbbbbbbbbbbbbbbbbbbbbbbb",
       task_id := "t-w3", status := "completed", verdict := some "MALICIOUS",
       explanation := some "drainer" }]
    { contract_address := "0xbbbbbbbbbbbbbbbbbbbbbbbbbbbbbbbbbbbbbbbb",
      task_id := "t-w3", status := "completed", verdict := some "MALICIOUS",
      explanation := some "drainer" }
    (by simp [analyze_contract_dedup, dedupHit, List.find?, String.toLower,
      String.map_eq, freshWindow])

/-! Claim C4: score range and verdict-indexed defaults. -/

/-- C4 (confirmed): `ensure_complete_analysis` always stores an integer score
in [0, 100]; whenever the upstream result omits the score or supplies a
non-numeric one, the stored score is exactly the verdict-indexed default
(MALICIOUS 15, SUSPICIOUS 45, BENIGN 85, otherwise — i.e. UNKNOWN — 50);
and every score the mock analyzer draws also lies in [0, 100]. -/
theorem score_range_and_defaults (result : GeminiDict)
    (rand : Int → Int → Int) (pick : Fin 3) (addr : String)
    (hrand : ∀ a b : Int, a ≤ b → a ≤ rand a b ∧ rand a b ≤ b) :
    (0 ≤ (ensure_complete_analysis result).security_score ∧
      (ensure_complete_analysis result).security_score ≤ 100) ∧
    ((∀ n : Int, result.security_score ≠ .numeric n) →
      (ensure_complete_analysis result).security_score =
        (if (ensure_complete_analysis result).verdict = "MALICIOUS" then 15
         else if (ensure_complete_analysis result).verdict = "SUSPICIOUS" then 45
         else if (ensure_complete_analysis result).verdict = "BENIGN" then 85
         else 50)) ∧
    (∀ s : Int, (_generate_mock_result rand pick addr).security_score = some s →
      0 ≤ s ∧ s ≤ 100) := by
  refine ⟨?_, ?_, ?_⟩
  · unfold ensure_complete_analysis
    cases result.security_score with
    | numeric n => simp only; omega
    | absent => simp only; split_ifs <;> omega
    | nonNumeric => simp only; split_ifs <;> omega
  · intro hn
    unfold ensure_complete_analysis
    cases hs : result.security_score with
    | numeric n => exact absurd hs (hn n)
    | absent => simp only; split_ifs <;> simp_all
    | nonNumeric => simp only; split_ifs <;> simp_all
  · intro s hs
    unfold _generate_mock_result at hs
    split_ifs at hs <;>
      simp only [Option.some.injEq] at hs <;> subst hs
    · have := hrand 1 15 (by omega); omega
    · have := hrand 85 98 (by omega); omega
    · have := hrand 75 95 (by omega); omega
    · have := hrand 35 65 (by omega); omega
    · have := hrand 5 25 (by omega); omega

/-- C4 witness: the theorem at a fully-absent upstream result (score and
verdict omitted) with a concrete in-range draw function. -/
theorem score_range_and_defaults_witness :
    (0 ≤ (ensure_complete_analysis {}).security_score ∧
      (ensure_complete_analysis {}).security_score ≤ 100) ∧
    ((∀ n : Int, ({} : GeminiDict).security_score ≠ .numeric n) →
      (ensure_complete_analysis {}).security_score =
        (if (ensure_complete_analysis {}).verdict = "MALICIOUS" then 15
         else if (ensure_complete_analysis {}).verdict = "SUSPICIOUS" then 45
         else if (ensure_complete_analysis {}).verdict = "BENIGN" then 85
         else 50)) ∧
    (∀ s : Int,
      (_generate_mock_result (fun a _ => a) 0
        "0xcccccccccccccccccccccccccccccccccccccccc").security_score = some s →
      0 ≤ s ∧ s ≤ 100) :=
  score_range_and_defaults {} (fun a _ => a) 0
    "0xcccccccccccccccccccccccccccccccccccccccc"
    (fun _ _ h => ⟨le_rfl, h⟩)

/-! Claim C6: fallback to the mock analyzer and terminal state in budget. -/

theorem mock_result_truthy (rand : Int → Int → Int) (pick : Fin 3)
    (addr : String) :
    truthyStr (_generate_mock_result rand pick addr).verdict = true ∧
    truthyStr (_generate_mock_result rand pick addr).explanation = true := by
  unfold _generate_mock_result
  split_ifs
  all_goals simp [truthyStr]

theorem mockFetch_processing (task : MockTask) (rand : Int → Int → Int)
    (pick : Fin 3) (n : Nat) (h : 5 * (n : Int) < 10) :
    mockFetch task rand pick n = some { status := some "processing" } := by
  simp [mockFetch, mock_get_result, add_sub_cancel_left, h]

theorem pollTick_processing_reply (a : ContractAnalysis) :
    pollTick a { status := some "processing" } = (a, false) := by
  simp [pollTick, truthyStr]

/-- C6 (confirmed): when the remote submission raises (transport failure,
misconfiguration, or a non-success response turned into a raise), the
client returns the mock submission instead of propagating the error, and a
task row polled against the resulting mock task reaches the terminal
`completed` state within the poll budget (at its third fetch, about 10
seconds in); the transport failure is never surfaced to the requester. -/
theorem backend_unavailable_falls_back (remote : SubmitOutcome) (e : String)
    (now : Int) (addr : String) (rand : Int → Int → Int) (pick : Fin 3)
    (row : ContractAnalysis)
    (he : remote_submit remote = .error e) :
    analyze_contract false remote now addr =
      (some { contract_address := addr, submitted_at := now },
        { task_id := "mock_" ++ toString now ++ "_" ++ addr.takeRight 8,
          status := "submitted" }) ∧
    (poll_analysis_result
        (mockFetch { contract_address := addr, submitted_at := now } rand pick)
        row).status = "completed" := by
  constructor
  · simp [analyze_contract, he, mock_analyze_contract]
  · have hg := mock_result_truthy rand pick addr
    have hf0 := mockFetch_processing
      { contract_address := addr, submitted_at := now } rand pick 0 (by norm_num)
    have hf1 := mockFetch_processing
      { contract_address := addr, submitted_at := now } rand pick 1 (by norm_num)
    have hf2 : mockFetch { contract_address := addr, submitted_at := now }
        rand pick 2 =
        some { _generate_mock_result rand pick addr with status := some "completed" } := by
      simp [mockFetch, mock_get_result, add_sub_cancel_left]
    have hcont : ∀ k : Nat, mockFetch { contract_address := addr, submitted_at := now }
        rand pick k = some { status := some "processing" } →
        ∀ r, mockFetch { contract_address := addr, submitted_at := now }
          rand pick k = some r → pollTick row r = (row, false) := by
      intro k hk r hr
      rw [hk] at hr
      injection hr with hr
      subst hr
      exact pollTick_processing_reply row
    have hb : (pollTick row
        { _generate_mock_result rand pick addr with status := some "completed" }).2
          = true := by
      simp [pollTick, hg.1, hg.2]
    have e0 : pollLoopAux
        (mockFetch { contract_address := addr, submitted_at := now } rand pick)
        0 (59 + 1) row =
        pollLoopAux
          (mockFetch { contract_address := addr, submitted_at := now } rand pick)
          1 59 row :=
      pollLoopAux_step_continue _ 0 59 row (hcont 0 hf0)
    have e1 : pollLoopAux
        (mockFetch { contract_address := addr, submitted_at := now } rand pick)
        1 (58 + 1) row =
        pollLoopAux
          (mockFetch { contract_address := addr, submitted_at := now } rand pick)
          2 58 row :=
      pollLoopAux_step_continue _ 1 58 row (hcont 1 hf1)
    have e2 : pollLoopAux
        (mockFetch { contract_address := addr, submitted_at := now } rand pick)
        2 (57 + 1) row =
        (pollTick row
          { _generate_mock_result rand pick addr with status := some "completed" }).1 :=
      pollLoopAux_step_break _ 2 57 row _ hf2 hb
    show (pollLoopAux
        (mockFetch { contract_address := addr, submitted_at := now } rand pick)
        0 60 row).status = "completed"
    rw [show (60 : Nat) = 59 + 1 from rfl, e0, show (59 : Nat) = 58 + 1 from rfl,
      e1, show (58 : Nat) = 57 + 1 from rfl, e2]
    simp [pollTick, hg.1, hg.2]

/-- C6 witness: a concrete failed remote submission at a concrete address,
draw function and processing row. -/
theorem backend_unavailable_falls_back_witness :
    analyze_contract false (.transportError "connection refused") 0
      "0xdddddddddddddddddddddddddddddddddddddddd" =
      (some { contract_address := "0xdddddddddddddddddddddddddddddddddddddddd",
              submitted_at := 0 },
        { task_id := "mock_" ++ toString (0 : Int) ++ "_" ++
            ("0xdddddddddddddddddddddddddddddddddddddddd").takeRight 8,
          status := "submitted" }) ∧
    (poll_analysis_result
        (mockFetch { contract_address := "0xdddddddddddddddddddddddddddddddddddddddd",
                     submitted_at := 0 } (fun a _ => a) 0)
        { contract_address := "0xdddddddddddddddddddddddddddddddddddddddd",
          task_id := "t-w6", status := "processing" }).status = "completed" :=
  backend_unavailable_falls_back (.transportError "connection refused")
    "connection refused" 0 "0xdddddddddddddddddddddddddddddddddddddddd"
    (fun a _ => a) 0
    { contract_address := "0xdddddddddddddddddddddddddddddddddddddddd",
      task_id := "t-w6", status := "processing" }
    rfl

/-! Claim C7: broadcast attempts every subscriber and prunes the failed. -/

theorem disconnect_cons_of_ne {α : Type} [DecidableEq α] (x c : α)
    (acc : List α) (h : c ≠ x) :
    disconnect (x :: acc) c = x :: disconnect acc c := by
  unfold disconnect
  by_cases hm : c ∈ acc
  · simp [hm, List.mem_cons, List.erase_cons, h.symm]
  · have : ¬c ∈ x :: acc := by simp [List.mem_cons, h, hm]
    simp [hm, this]

theorem removeEach_cons_notin {α : Type} [DecidableEq α] (ds : List α) :
    ∀ (x : α) (acc : List α), x ∉ ds →
      ds.foldl disconnect (x :: acc) = x :: ds.foldl disconnect acc := by
  induction ds with
  | nil => intro x acc _; rfl
  | cons d ds ih =>
      intro x acc hx
      have hdx : d ≠ x := fun hdx => hx (hdx ▸ List.mem_cons_self d ds)
      have hx2 : x ∉ ds := fun hm => hx (List.mem_cons_of_mem d hm)
      calc (d :: ds).foldl disconnect (x :: acc)
          = ds.foldl disconnect (disconnect (x :: acc) d) := rfl
        _ = ds.foldl disconnect (x :: disconnect acc d) := by
              rw [disconnect_cons_of_ne x d acc hdx]
        _ = x :: ds.foldl disconnect (disconnect acc d) := ih x (disconnect acc d) hx2
        _ = x :: (d :: ds).foldl disconnect acc := rfl

theorem removeEach_filter {α : Type} [DecidableEq α] (p : α → Bool) :
    ∀ l : List α, l.Nodup →
      (l.filter p).foldl disconnect l = l.filter (fun c => !(p c)) := by
  intro l
  induction l with
  | nil => intro _; rfl
  | cons x xs ih =>
      intro hnd
      have hx : x ∉ xs := (List.nodup_cons.mp hnd).1
      have hxs : xs.Nodup := (List.nodup_cons.mp hnd).2
      by_cases hp : p x = true
      · have hf : (x :: xs).filter p = x :: xs.filter p :=
          List.filter_cons_of_pos hp
        have hd : disconnect (x :: xs) x = xs := by
          simp [disconnect, List.mem_cons]
        have hr : (x :: xs).filter (fun c => !(p c)) = xs.filter (fun c => !(p c)) := by
          simp [List.filter_cons, hp]
        rw [hf, hr]
        calc (x :: xs.filter p).foldl disconnect (x :: xs)
            = (xs.filter p).foldl disconnect (disconnect (x :: xs) x) := rfl
          _ = (xs.filter p).foldl disconnect xs := by rw [hd]
          _ = xs.filter (fun c => !(p c)) := ih hxs
      · have hp' : p x = false := by simpa using hp
        have hf : (x :: xs).filter p = xs.filter p := by
          simp [List.filter_cons, hp']
        have hxf : x ∉ xs.filter p := fun hm => hx (List.mem_of_mem_filter hm)
        have hr : (x :: xs).filter (fun c => !(p c)) =
            x :: xs.filter (fun c => !(p c)) := by
          simp [List.filter_cons, hp']
        rw [hf, hr, removeEach_cons_notin (xs.filter p) x xs hxf, ih hxs]

/-- C7 (confirmed): within one publish, a delivery is attempted to every
registered subscriber in order — a failure on one never prevents delivery
to the rest — and exactly the subscribers whose delivery failed are removed
from the registered set before the call returns (for a duplicate-free
subscriber list, as `connect` builds). -/
theorem broadcast_attempts_all_prunes_failed {α : Type} [DecidableEq α]
    (active_connections : List α) (fails : α → Bool)
    (h : active_connections.Nodup) :
    (broadcast active_connections fails).1 = active_connections ∧
    (broadcast active_connections fails).2 =
      active_connections.filter (fun c => !(fails c)) := by
  unfold broadcast
  by_cases he : active_connections = []
  · subst he; simp
  · rw [if_neg he]
    exact ⟨rfl, removeEach_filter fails active_connections h⟩

/-- C7 witness: three subscribers of which the middle one fails — all three
are attempted and exactly the failing one is deregistered. -/
theorem broadcast_attempts_all_prunes_failed_witness :
    (broadcast [1, 2, 3] (fun c => decide (c = 2))).1 = [1, 2, 3] ∧
    (broadcast [1, 2, 3] (fun c => decide (c = 2))).2 =
      List.filter (fun c => !(decide (c = 2))) [1, 2, 3] :=
  broadcast_attempts_all_prunes_failed [1, 2, 3] (fun c => decide (c = 2))
    (by decide)

/-! Claim C8: alert exactly on malicious completions. -/

/-- C8 (confirmed): a completion publish always emits `analysis_complete`,
and emits `alert` in addition exactly when the completed verdict is the
`MALICIOUS` category. -/
theorem alert_iff_malicious (verdict : Option String) :
    "analysis_complete" ∈ broadcast_analysis_complete verdict ∧
    ("alert" ∈ broadcast_analysis_complete verdict ↔ verdict = some "MALICIOUS") := by
  constructor
  · simp [broadcast_analysis_complete]
  · by_cases h : verdict = some "MALICIOUS" <;>
      simp [broadcast_analysis_complete, h]

/-! Claim C9: re-query stability of terminal tasks. -/

/-- C9 counterexample: the mock status checker regenerates the random result
on every call once the 10-second delay has passed — querying the status of
the same terminal mock task twice (here with the random template draws the
two calls can make, index 0 then index 2) yields different verdicts, so
repeated status queries of a terminal task are not bit-identical. -/
theorem mock_status_requery_differs :
    ((mock_get_status
        { contract_address := "0xeeeeeeeeeeeeeeeeeeeeeeeeeeeeeeeeeeeeeeee",
          submitted_at := 0 } 10 (fun a _ => a) 0).1).status = "completed" ∧
    ((mock_get_status
        { contract_address := "0xeeeeeeeeeeeeeeeeeeeeeeeeeeeeeeeeeeeeeeee",
          submitted_at := 0 } 10 (fun a _ => a) 0).2).verdict = some "BENIGN" ∧
    ((mock_get_status
        (mock_get_status
          { contract_address := "0xeeeeeeeeeeeeeeeeeeeeeeeeeeeeeeeeeeeeeeee",
            submitted_at := 0 } 10 (fun a _ => a) 0).1
        10 (fun a _ => a) 2).2).verdict = some "MALICIOUS" := by
  refine ⟨?_, ?_, ?_⟩ <;>
    simp [mock_get_status, _generate_mock_result, KNOWN_MALICIOUS, KNOWN_SAFE,
      String.toLower, String.map_eq]

/-- C9 (amended): re-querying a task stored as `completed` through the
backend status endpoint is stable — the row is left unchanged and any two
queries answer identically — and repeated mock result fetches reuse the
cached result, so they too are bit-identical; however the mock status
checker regenerates a fresh random result on every call after the fixed
delay, so status re-queries of a terminal mock task may differ. -/
theorem terminal_requery_stable (a : ContractAnalysis)
    (res res2 : AnalyzerResult) (t : MockTask) (r : AnalyzerResult)
    (now : Int) (rand rand2 : Int → Int → Int) (pick pick2 : Fin 3)
    (ha : a.status = "completed") (ht : t.result = some r) :
    (get_analysis_status a res).1 = a ∧
    (get_analysis_status a res).2 = (get_analysis_status a res2).2 ∧
    (mock_get_result t now rand pick).1 = t ∧
    (mock_get_result t now rand pick).2 = (mock_get_result t now rand2 pick2).2 := by
  refine ⟨?_, ?_, ?_, ?_⟩
  · simp [get_analysis_status, ha]
  · simp [get_analysis_status, ha]
  · unfold mock_get_result
    split_ifs
    · rfl
    · obtain ⟨ca, sa, st, re⟩ := t
      simp only at ht
      simp [ht]
  · unfold mock_get_result
    split_ifs
    · rfl
    · simp [ht]

/-- C9 witness: the amended stability at a concrete completed row and a
concrete mock task with a cached result, queried with two different draw
functions and template indexes. -/
theorem terminal_requery_stable_witness :
    (get_analysis_status
        { contract_address := "0xw9", task_id := "t-w9", status := "completed",
          verdict := some "BENIGN", explanation := some "ok" }
        { status := some "processing" }).1 =
      { contract_address := "0xw9", task_id := "t-w9", status := "completed",
        verdict := some "BENIGN", explanation := some "ok" } ∧
    (get_analysis_status
        { contract_address := "0xw9", task_id := "t-w9", status := "completed",
          verdict := some "BENIGN", explanation := some "ok" }
        { status := some "processing" }).2 =
      (get_analysis_status
        { contract_address := "0xw9", task_id := "t-w9", status := "completed",
          verdict := some "BENIGN", explanation := some "ok" }
        { status := some "failed" }).2 ∧
    (mock_get_result
        { contract_address := "0xw9m", submitted_at := 0,
          result := some { status := some "completed", verdict := some "BENIGN",
                           explanation := some "fine", security_score := some 90 } }
        20 (fun a _ => a) 0).1 =
      { contract_address := "0xw9m", submitted_at := 0,
        result := some { status := some "completed", verdict := some "BENIGN",
                         explanation := some "fine", security_score := some 90 } } ∧
    (mock_get_result
        { contract_address := "0xw9m", submitted_at := 0,
          result := some { status := some "completed", verdict := some "BENIGN",
                           explanation := some "fine", security_score := some 90 } }
        20 (fun a _ => a) 0).2 =
      (mock_get_result
        { contract_address := "0xw9m", submitted_at := 0,
          result := some { status := some "completed", verdict := some "BENIGN",
                           explanation := some "fine", security_score := some 90 } }
        20 (fun _ b => b) 2).2 :=
  terminal_requery_stable
    { contract_address := "0xw9", task_id := "t-w9", status := "completed",
      verdict := some "BENIGN", explanation := some "ok" }
    { status := some "processing" } { status := some "failed" }
    { contract_address := "0xw9m", submitted_at := 0,
      result := some { status := some "completed", verdict := some "BENIGN",
                       explanation := some "fine", security_score := some 90 } }
    { status := some "completed", verdict := some "BENIGN",
      explanation := some "fine", security_score := some 90 }
    20 (fun a _ => a) (fun _ b => b) 0 2 rfl rfl

/-! Claim C10: disconnect is idempotent and safe on absent handles. -/

/-- C10 (confirmed): removing a handle from a duplicate-free registered set
is idempotent, and disconnecting a handle that is not registered leaves the
set unchanged and raises no error, so a subscriber may safely be pruned
more than once. -/
theorem disconnect_idempotent {α : Type} [DecidableEq α] (conns : List α)
    (c : α) (h : conns.Nodup) :
    (c ∉ conns → disconnect conns c = conns) ∧
    disconnect (disconnect conns c) c = disconnect conns c := by
  constructor
  · intro hc; simp [disconnect, hc]
  · by_cases hc : c ∈ conns
    · have h1 : disconnect conns c = conns.erase c := by simp [disconnect, hc]
      have h2 : c ∉ conns.erase c := fun hm =>
        (h.mem_erase_iff.mp hm).1 rfl
      rw [h1]
      simp [disconnect, h2]
    · simp [disconnect, hc]

/-- C10 witness: pruning the absent handle 3 from the set [1, 2] twice. -/
theorem disconnect_idempotent_witness :
    ((3 : Nat) ∉ [1, 2] → disconnect [1, 2] 3 = [1, 2]) ∧
    disconnect (disconnect [1, 2] 3) 3 = disconnect [1, 2] 3 :=
  disconnect_idempotent [1, 2] 3 (by decide)

end EthTracker
